import Mathlib

/-!
Verification of the PicoWeatherStation core logic.

The Python source performs IEEE-754 floating-point arithmetic; here each
float expression is embedded as exact rational arithmetic over ℚ, and
Python integers as ℤ / ℕ.  The int() conversion of Python truncates toward
zero, which is modelled by ratTrunc below.  Stateful objects
(PowerManager, the WiFiManager data buffer) are embedded as explicit state
passing over structures and lists.
-/

/-- Python int() applied to a rational: truncation toward zero. -/
def ratTrunc (q : ℚ) : ℤ := q.num.tdiv q.den

/-! ### BME280 compensation pipeline (src/bme280.py) -/

/-- BME280._compensate_temperature: returns (t_fine, temperature in °C).
var1 = ((raw_temp / 16384.0) - (dig_T1 / 1024.0)) * dig_T2
var2 = ((raw_temp / 131072.0) - (dig_T1 / 8192.0)) ** 2 * dig_T3
t_fine = int(var1 + var2); result = t_fine / 5120.0 -/
def compensate_temperature (dig_T1 dig_T2 dig_T3 : ℚ) (raw_temp : ℚ) : ℤ × ℚ :=
  let var1 := ((raw_temp / 16384) - (dig_T1 / 1024)) * dig_T2
  let var2 := ((raw_temp / 131072) - (dig_T1 / 8192)) ^ 2 * dig_T3
  let t_fine := ratTrunc (var1 + var2)
  (t_fine, (t_fine : ℚ) / 5120)

/-- The first polynomial term of BME280._compensate_pressure (the value the
code names var1 just before the zero test, lines 176-181). -/
def pressure_var1 (dig_P1 dig_P2 dig_P3 : ℚ) (t_fine : ℤ) : ℚ :=
  let v := (t_fine : ℚ) / 2 - 64000
  let w := (dig_P3 * v * v / 524288 + dig_P2 * v) / 524288
  (1 + w / 32768) * dig_P1

/-- BME280._compensate_pressure: pressure in hPa from raw pressure and the
fine temperature; returns 0 when the first polynomial term is 0. -/
def compensate_pressure (dig_P1 dig_P2 dig_P3 dig_P4 dig_P5 dig_P6
    dig_P7 dig_P8 dig_P9 : ℚ) (t_fine : ℤ) (raw_press : ℚ) : ℚ :=
  let var1 := (t_fine : ℚ) / 2 - 64000
  let var2a := var1 * var1 * dig_P6 / 32768
  let var2b := var2a + var1 * dig_P5 * 2
  let var2 := var2b / 4 + dig_P4 * 65536
  let v1 := pressure_var1 dig_P1 dig_P2 dig_P3 t_fine
  if v1 = 0 then 0
  else
    let press0 := 1048576 - raw_press
    let press1 := ((press0 - var2 / 4096) * 6250) / v1
    let pa := dig_P9 * press1 * press1 / 2147483648
    let pb := press1 * dig_P8 / 32768
    let press2 := press1 + (pa + pb + dig_P7) / 16
    press2 / 100

/-- The humidity polynomial of BME280._compensate_humidity before the final
clamp (the value the code names h at line 200). -/
def humidity_unclamped (dig_H1 dig_H2 dig_H3 dig_H4 dig_H5 dig_H6 : ℚ)
    (t_fine : ℤ) (raw_hum : ℚ) : ℚ :=
  let h0 := (t_fine : ℚ) - 76800
  let h1 := ((raw_hum - (dig_H4 * 64 + dig_H5 / 16384 * h0)) *
    (dig_H2 / 65536 * (1 + dig_H6 / 67108864 * h0 *
    (1 + dig_H3 / 67108864 * h0))))
  h1 * (1 - dig_H1 * h1 / 524288)

/-- The final clamp of BME280._compensate_humidity (lines 202-205). -/
def clamp_humidity (h : ℚ) : ℚ :=
  if h > 100 then 100
  else if h < 0 then 0
  else h

/-- BME280._compensate_humidity: the polynomial result clamped to [0, 100]. -/
def compensate_humidity (dig_H1 dig_H2 dig_H3 dig_H4 dig_H5 dig_H6 : ℚ)
    (t_fine : ℤ) (raw_hum : ℚ) : ℚ :=
  clamp_humidity (humidity_unclamped dig_H1 dig_H2 dig_H3 dig_H4 dig_H5 dig_H6 t_fine raw_hum)

/-- BME280.calculate_dew_point: a = 17.27, b = 237.7,
alpha = a*T/(b+T) + humidity/100, dew point = b*alpha/(a-alpha). -/
def calculate_dew_point (temperature_c humidity_percent : ℚ) : ℚ :=
  let a : ℚ := 17.27
  let b : ℚ := 237.7
  let alpha := ((a * temperature_c) / (b + temperature_c)) + (humidity_percent / 100)
  (b * alpha) / (a - alpha)

/-! ### Theorems for claims C1-C4 -/

/-- Claim C1: for every raw temperature and every set of calibration
coefficients, temperature compensation computes exactly
var1 = ((raw/16384) - (dig_T1/1024)) * dig_T2 and
var2 = ((raw/131072) - (dig_T1/8192))^2 * dig_T3, sets the fine
temperature to the truncation toward zero of var1 + var2, and returns
fine_temperature / 5120 as the temperature in °C. -/
theorem compensate_temperature_spec (dig_T1 dig_T2 dig_T3 raw_temp : ℚ) :
    compensate_temperature dig_T1 dig_T2 dig_T3 raw_temp =
      (ratTrunc (((raw_temp / 16384) - (dig_T1 / 1024)) * dig_T2 +
        ((raw_temp / 131072) - (dig_T1 / 8192)) ^ 2 * dig_T3),
       (ratTrunc (((raw_temp / 16384) - (dig_T1 / 1024)) * dig_T2 +
        ((raw_temp / 131072) - (dig_T1 / 8192)) ^ 2 * dig_T3) : ℚ) / 5120) := rfl

/-- Claim C2: for every raw humidity, fine temperature and calibration
coefficients, the compensated humidity lies in [0, 100]; values of the raw
polynomial above 100 are clamped to 100 and values below 0 to 0. -/
theorem compensate_humidity_clamped (dig_H1 dig_H2 dig_H3 dig_H4 dig_H5 dig_H6 : ℚ)
    (t_fine : ℤ) (raw_hum : ℚ) :
    (0 ≤ compensate_humidity dig_H1 dig_H2 dig_H3 dig_H4 dig_H5 dig_H6 t_fine raw_hum ∧
      compensate_humidity dig_H1 dig_H2 dig_H3 dig_H4 dig_H5 dig_H6 t_fine raw_hum ≤ 100) ∧
    (humidity_unclamped dig_H1 dig_H2 dig_H3 dig_H4 dig_H5 dig_H6 t_fine raw_hum > 100 →
      compensate_humidity dig_H1 dig_H2 dig_H3 dig_H4 dig_H5 dig_H6 t_fine raw_hum = 100) ∧
    (humidity_unclamped dig_H1 dig_H2 dig_H3 dig_H4 dig_H5 dig_H6 t_fine raw_hum < 0 →
      compensate_humidity dig_H1 dig_H2 dig_H3 dig_H4 dig_H5 dig_H6 t_fine raw_hum = 0) := by
  unfold compensate_humidity clamp_humidity
  set h := humidity_unclamped dig_H1 dig_H2 dig_H3 dig_H4 dig_H5 dig_H6 t_fine raw_hum with hh
  refine ⟨?_, ?_, ?_⟩
  · split_ifs with h1 h2 <;> constructor <;> linarith
  · intro hgt; simp [hgt]
  · intro hlt
    have hng : ¬ (h > 100) := by linarith
    simp [hng, hlt]

/-- Claim C3: whenever the first polynomial term of pressure compensation is
exactly zero — in particular whenever dig_P1 = 0 — the pressure compensation
function returns exactly 0 (the division by that term is never reached; the
model is a total function, so no exception can arise). -/
theorem compensate_pressure_zero_guard (dig_P1 dig_P2 dig_P3 dig_P4 dig_P5 dig_P6
    dig_P7 dig_P8 dig_P9 : ℚ) (t_fine : ℤ) (raw_press : ℚ)
    (h : pressure_var1 dig_P1 dig_P2 dig_P3 t_fine = 0 ∨ dig_P1 = 0) :
    compensate_pressure dig_P1 dig_P2 dig_P3 dig_P4 dig_P5 dig_P6
      dig_P7 dig_P8 dig_P9 t_fine raw_press = 0 := by
  have hv : pressure_var1 dig_P1 dig_P2 dig_P3 t_fine = 0 := by
    rcases h with h | h
    · exact h
    · simp [pressure_var1, h]
  unfold compensate_pressure
  simp [hv]

/-- Witness for C3 at concrete inputs: dig_P1 = 0 forces a zero result. -/
theorem compensate_pressure_zero_guard_witness :
    compensate_pressure 0 2 3 4 5 6 7 8 9 123 456 = 0 :=
  compensate_pressure_zero_guard 0 2 3 4 5 6 7 8 9 123 456 (Or.inr rfl)

/-- Claim C4 (code bug): the dew point routine uses humidity/100 where the
Magnus formula requires ln(humidity/100).  At temperature 25 °C and
humidity 60 % the code returns 140093249/3947459 ≈ 35.49 °C, which is more
than 0.2 °C away from the 16.7 °C the specification expects (and above the
air temperature, which is physically impossible for a dew point). -/
theorem calculate_dew_point_deviates :
    calculate_dew_point 25 60 = 140093249 / 3947459 ∧
    ¬ |calculate_dew_point 25 60 - 16.7| ≤ 0.2 := by
  constructor
  · unfold calculate_dew_point
    norm_num
  · unfold calculate_dew_point
    rw [abs_le]
    norm_num

/-! ### WiFiManager transmission buffer (src/wifimanager.py) -/

/-- config.DATA_BUFFER_SIZE (src/config.py line 32). -/
def DATA_BUFFER_SIZE : ℕ := 50

/-- WiFiManager.buffer_data: append the new entry, then pop index 0 when the
buffer exceeds DATA_BUFFER_SIZE.  Entries are kept abstract (the code wraps
the data in a timestamped record before appending). -/
def buffer_data {α : Type} (data_buffer : List α) (entry : α) : List α :=
  if (data_buffer ++ [entry]).length > DATA_BUFFER_SIZE then (data_buffer ++ [entry]).drop 1
  else data_buffer ++ [entry]

/-- One iteration of the transmission loop of
WiFiManager.transmit_buffered_data: state is
(transmitted_count, failed_entries, entries the sender was called on). -/
def transmit_step {α : Type} (send : α → Bool) (st : ℕ × List α × List α)
    (entry : α) : ℕ × List α × List α :=
  if send entry then (st.1 + 1, st.2.1, st.2.2 ++ [entry])
  else (st.1, st.2.1 ++ [entry], st.2.2 ++ [entry])

/-- WiFiManager.transmit_buffered_data: returns
(transmitted_count, new data_buffer, trace of sender calls in order).
An empty buffer, or a failed connection, returns 0 and leaves the buffer
untouched; otherwise every entry is attempted oldest-first and only the
failed ones are kept. -/
def transmit_buffered_data {α : Type} (connected : Bool) (send : α → Bool)
    (data_buffer : List α) : ℕ × List α × List α :=
  if data_buffer.isEmpty then (0, data_buffer, [])
  else if !connected then (0, data_buffer, [])
  else data_buffer.foldl (transmit_step send) (0, [], [])

/-- Closed form of repeated buffer_data insertion: starting from a buffer
within capacity, the result keeps the last DATA_BUFFER_SIZE entries of the
concatenated stream (Nat subtraction makes the drop 0 while within
capacity). -/
theorem foldl_buffer_data_drop {α : Type} (es : List α) : ∀ buf : List α,
    buf.length ≤ DATA_BUFFER_SIZE →
    List.foldl buffer_data buf es =
      (buf ++ es).drop (buf.length + es.length - DATA_BUFFER_SIZE) := by
  simp only [DATA_BUFFER_SIZE]
  induction es with
  | nil =>
      intro buf h
      simp [Nat.sub_eq_zero_of_le h]
  | cons e es ih =>
      intro buf h
      rw [List.foldl_cons]
      by_cases hb : buf.length + 1 > 50
      · have hcond : (buf ++ [e]).length > DATA_BUFFER_SIZE := by
          simp [DATA_BUFFER_SIZE]
          omega
        have hbe : buffer_data buf e = (buf ++ [e]).drop 1 := by
          unfold buffer_data
          rw [if_pos hcond]
        rw [hbe]
        have hlen : ((buf ++ [e]).drop 1).length ≤ 50 := by
          simpa using h
        rw [ih _ hlen]
        have h1 : (1 : ℕ) ≤ (buf ++ [e]).length := by simp
        rw [← List.drop_append_of_le_length h1, List.drop_drop,
          List.append_assoc, List.singleton_append]
        congr 1
        simp
        omega
      · have hcond : ¬ ((buf ++ [e]).length > DATA_BUFFER_SIZE) := by
          simp [DATA_BUFFER_SIZE]
          omega
        have hbe : buffer_data buf e = buf ++ [e] := by
          unfold buffer_data
          rw [if_neg hcond]
        rw [hbe]
        have hlen : (buf ++ [e]).length ≤ 50 := by
          simp
          omega
        rw [ih _ hlen, List.append_assoc, List.singleton_append]
        congr 1
        simp
        omega

/-- Claim C5 counterexample: a starting buffer already over capacity (51
entries) still holds 51 entries after an insertion completes, so the claim
does not hold for every starting buffer state. -/
theorem buffer_data_overfull_start :
    ¬ ((buffer_data (List.replicate 51 (0 : ℕ)) 0).length ≤ DATA_BUFFER_SIZE) := by
  decide

/-- Claim C5 as amended: for every starting buffer within the configured
capacity and every sequence of insertions, the buffer never exceeds
DATA_BUFFER_SIZE entries after an insertion completes; and inserting
DATA_BUFFER_SIZE + 1 entries into an initially empty buffer leaves exactly
DATA_BUFFER_SIZE entries, with the single oldest entry (index 0) evicted
and FIFO insertion order preserved among the rest. -/
theorem buffer_data_capacity (α : Type) (buf es : List α)
    (h : buf.length ≤ DATA_BUFFER_SIZE) :
    (List.foldl buffer_data buf es).length ≤ DATA_BUFFER_SIZE ∧
    (∀ es2 : List α, es2.length = DATA_BUFFER_SIZE + 1 →
      List.foldl buffer_data [] es2 = es2.drop 1 ∧
      (List.foldl buffer_data [] es2).length = DATA_BUFFER_SIZE) := by
  constructor
  · rw [foldl_buffer_data_drop es buf h]
    simp only [DATA_BUFFER_SIZE, List.length_drop, List.length_append]
    omega
  · intro es2 h2
    have h0 : ([] : List α).length ≤ DATA_BUFFER_SIZE := by simp
    rw [foldl_buffer_data_drop es2 [] h0]
    refine ⟨?_, ?_⟩ <;> simp [DATA_BUFFER_SIZE, h2]

/-- Witness for C5 (amended): a single insertion into an empty buffer stays
within capacity, and 51 insertions into an empty buffer keep exactly the
last 50 in order. -/
theorem buffer_data_capacity_witness :
    (List.foldl buffer_data ([] : List ℕ) [7]).length ≤ DATA_BUFFER_SIZE ∧
    List.foldl buffer_data ([] : List ℕ) (List.range 51) = (List.range 51).drop 1 :=
  ⟨(buffer_data_capacity ℕ [] [7] (by decide)).1,
   ((buffer_data_capacity ℕ [] [] (by decide)).2 (List.range 51) (by decide)).1⟩

/-- The transmission loop of WiFiManager.transmit_buffered_data: the final
state adds the number of successful sends to the count, appends the failed
entries in order to failed_entries, and records every entry in the trace. -/
theorem foldl_transmit_step {α : Type} (send : α → Bool) (buf : List α) :
    ∀ (c : ℕ) (f t : List α),
    List.foldl (transmit_step send) (c, f, t) buf =
      (c + (buf.filter send).length,
       f ++ buf.filter (fun e => ! send e),
       t ++ buf) := by
  induction buf with
  | nil =>
      intro c f t
      simp
  | cons e es ih =>
      intro c f t
      rw [List.foldl_cons]
      by_cases hs : send e
      · have hstep : transmit_step send (c, f, t) e = (c + 1, f, t ++ [e]) := by
          simp [transmit_step, hs]
        rw [hstep, ih]
        simp [List.filter_cons, hs]
        omega
      · have hstep : transmit_step send (c, f, t) e = (c, f ++ [e], t ++ [e]) := by
          simp [transmit_step, hs]
        rw [hstep, ih]
        simp [List.filter_cons, hs]

/-- Claim C6: draining with a working connection calls the sender on every
buffered entry oldest-first in original insertion order (the trace is the
buffer itself), keeps exactly the failed entries in original order with no
duplication, returns the number of successful transmissions, and when every
transmission succeeds the buffer ends empty with the count equal to the
number of buffered entries. -/
theorem transmit_buffered_data_drain (α : Type) (send : α → Bool) (buf : List α) :
    (transmit_buffered_data true send buf).2.2 = buf ∧
    (transmit_buffered_data true send buf).2.1 = buf.filter (fun e => ! send e) ∧
    (transmit_buffered_data true send buf).1 = (buf.filter send).length ∧
    ((∀ e ∈ buf, send e = true) →
      (transmit_buffered_data true send buf).2.1 = [] ∧
      (transmit_buffered_data true send buf).1 = buf.length) := by
  have hmain : transmit_buffered_data true send buf =
      ((buf.filter send).length, buf.filter (fun e => ! send e), buf) := by
    unfold transmit_buffered_data
    by_cases hb : buf.isEmpty
    · rw [List.isEmpty_iff.mp hb]
      simp
    · simp only [hb, Bool.not_true, Bool.false_eq_true, if_false]
      rw [foldl_transmit_step]
      simp
  rw [hmain]
  refine ⟨rfl, rfl, rfl, ?_⟩
  intro hall
  constructor
  · simp only [List.filter_eq_nil_iff]
    intro e he
    simp [hall e he]
  · simp only []
    rw [List.filter_eq_self.mpr hall]

/-- Witness for C6: a drain of 3 buffered entries with an always-succeeding
sender empties the buffer, reports 3 transmissions, and the sender saw the
3 entries in insertion order. -/
theorem transmit_buffered_data_drain_witness :
    (transmit_buffered_data true (fun _ => true) [10, 20, 30]).2.1 = ([] : List ℕ) ∧
    (transmit_buffered_data true (fun _ => true) [10, 20, 30]).1 = 3 ∧
    (transmit_buffered_data true (fun _ => true) ([10, 20, 30] : List ℕ)).2.2 = [10, 20, 30] := by
  have h := transmit_buffered_data_drain ℕ (fun _ => true) [10, 20, 30]
  exact ⟨(h.2.2.2 (by decide)).1, (h.2.2.2 (by decide)).2, h.1⟩

/-! ### PowerManager (src/power.py) with config constants (src/config.py) -/

/-- config.BATTERY_LOW_VOLTAGE. -/
def BATTERY_LOW_VOLTAGE : ℚ := 3.3

/-- config.BATTERY_CRITICAL_VOLTAGE. -/
def BATTERY_CRITICAL_VOLTAGE : ℚ := 3.0

/-- config.BATTERY_FULL_VOLTAGE. -/
def BATTERY_FULL_VOLTAGE : ℚ := 4.2

/-- config.SENSOR_READ_INTERVAL, the base sleep interval in seconds. -/
def SENSOR_READ_INTERVAL : ℕ := 300

/-- PowerManager.max_samples, the rolling-average window size. -/
def max_samples : ℕ := 10

/-- The mutable attributes of a PowerManager instance that the power claims
depend on, as an explicit state record. -/
structure PowerManager where
  low_voltage : ℚ
  critical_voltage : ℚ
  full_voltage : ℚ
  voltage_samples : List ℚ
  current_voltage : ℚ
  battery_percentage : ℚ
  is_low_battery : Bool
  is_critical_battery : Bool

/-- PowerManager.__init__: thresholds from config, empty sample window, and
both battery flags initialized to False. -/
def PowerManager.init : PowerManager :=
  { low_voltage := BATTERY_LOW_VOLTAGE
    critical_voltage := BATTERY_CRITICAL_VOLTAGE
    full_voltage := BATTERY_FULL_VOLTAGE
    voltage_samples := []
    current_voltage := 0
    battery_percentage := 0
    is_low_battery := false
    is_critical_battery := false }

/-- PowerManager.read_battery_voltage with averaged=True: v is the converted
instantaneous voltage (raw/65535 * vref * divider ratio * calibration); it is
appended to the rolling window, the oldest sample is popped past max_samples,
and the window mean is returned and stored as current_voltage. -/
def read_battery_voltage (pm : PowerManager) (v : ℚ) : ℚ × PowerManager :=
  let samples0 := pm.voltage_samples ++ [v]
  let samples := if samples0.length > max_samples then samples0.drop 1 else samples0
  let voltage := samples.sum / (samples.length : ℚ)
  (voltage, { pm with voltage_samples := samples, current_voltage := voltage })

/-- The pure interpolation core of PowerManager.get_battery_percentage
(lines 92-99): 100 at or above full voltage, 0 at or below critical voltage,
linear interpolation strictly in between. -/
def battery_percentage_of (critical full voltage : ℚ) : ℚ :=
  if voltage ≥ full then 100
  else if voltage ≤ critical then 0
  else ((voltage - critical) / (full - critical)) * 100

/-- PowerManager.get_battery_percentage: reads a fresh averaged voltage,
interpolates, and stores the percentage. -/
def get_battery_percentage (pm : PowerManager) (v : ℚ) : ℚ × PowerManager :=
  let r := read_battery_voltage pm v
  let percentage := battery_percentage_of r.2.critical_voltage r.2.full_voltage r.1
  (percentage, { r.2 with battery_percentage := percentage })

/-- The battery state enum of PowerManager.get_battery_status. -/
inductive BatteryState where
  | CRITICAL
  | LOW
  | FULL
  | NORMAL
deriving DecidableEq, Repr

/-- The pure classification core of PowerManager.get_battery_status
(lines 115-130): ordered checks voltage ≤ critical, voltage ≤ low,
voltage ≥ full * 0.95. -/
def battery_state_of (critical low full voltage : ℚ) : BatteryState :=
  if voltage ≤ critical then .CRITICAL
  else if voltage ≤ low then .LOW
  else if voltage ≥ full * (95 / 100) then .FULL
  else .NORMAL

/-- PowerManager.get_battery_status: reads a voltage (first ADC read), reads
a percentage (second ADC read inside get_battery_percentage), classifies the
first voltage through the ordered threshold checks, and updates the
is_critical_battery / is_low_battery flags accordingly. -/
def get_battery_status (pm : PowerManager) (v1 v2 : ℚ) : BatteryState × PowerManager :=
  let r1 := read_battery_voltage pm v1
  let r2 := get_battery_percentage r1.2 v2
  if r1.1 ≤ r2.2.critical_voltage then
    (.CRITICAL, { r2.2 with is_critical_battery := true, is_low_battery := true })
  else if r1.1 ≤ r2.2.low_voltage then
    (.LOW, { r2.2 with is_low_battery := true, is_critical_battery := false })
  else if r1.1 ≥ r2.2.full_voltage * (95 / 100) then
    (.FULL, { r2.2 with is_low_battery := false, is_critical_battery := false })
  else
    (.NORMAL, { r2.2 with is_low_battery := false, is_critical_battery := false })

/-- PowerManager.get_suggested_sleep_time: reads a fresh percentage (whose
value is discarded for the branch), then multiplies the base interval by 4
or 2 according to the stored is_critical_battery / is_low_battery flags. -/
def get_suggested_sleep_time (pm : PowerManager) (v : ℚ) : ℕ × PowerManager :=
  let r := get_battery_percentage pm v
  if r.2.is_critical_battery then (SENSOR_READ_INTERVAL * 4, r.2)
  else if r.2.is_low_battery then (SENSOR_READ_INTERVAL * 2, r.2)
  else (SENSOR_READ_INTERVAL, r.2)

/-- The interpolated percentage never exceeds 100 for voltages up to full. -/
theorem interp_le_100 (critical full v : ℚ) (h : critical < full) (hv : v ≤ full) :
    ((v - critical) / (full - critical)) * 100 ≤ 100 := by
  rw [div_mul_eq_mul_div, div_le_iff₀ (by linarith)]
  linarith

/-- The interpolated percentage is nonnegative for voltages above critical. -/
theorem interp_nonneg (critical full v : ℚ) (h : critical < full) (hv : critical ≤ v) :
    0 ≤ ((v - critical) / (full - critical)) * 100 :=
  mul_nonneg (div_nonneg (by linarith) (by linarith)) (by norm_num)

/-- The interpolated percentage is monotone in the voltage. -/
theorem interp_mono (critical full v w : ℚ) (h : critical < full) (hvw : v ≤ w) :
    ((v - critical) / (full - critical)) * 100 ≤
      ((w - critical) / (full - critical)) * 100 := by
  have hd : (0 : ℚ) < full - critical := by linarith
  have := (div_le_div_iff_of_pos_right hd).mpr (show v - critical ≤ w - critical by linarith)
  linarith

/-- Claim C7: with critical below full voltage, the battery percentage is
monotonically non-decreasing in voltage and always in [0,100]; it is 0 at
the critical voltage and below, 100 at the full voltage and above, and the
linear interpolation ((v - critical)/(full - critical)) * 100 strictly in
between. -/
theorem battery_percentage_props (critical full : ℚ) (h : critical < full) :
    (∀ v w : ℚ, v ≤ w →
      battery_percentage_of critical full v ≤ battery_percentage_of critical full w) ∧
    (∀ v : ℚ, 0 ≤ battery_percentage_of critical full v ∧
      battery_percentage_of critical full v ≤ 100) ∧
    battery_percentage_of critical full critical = 0 ∧
    (∀ v : ℚ, v ≤ critical → battery_percentage_of critical full v = 0) ∧
    battery_percentage_of critical full full = 100 ∧
    (∀ v : ℚ, full ≤ v → battery_percentage_of critical full v = 100) ∧
    (∀ v : ℚ, critical < v → v < full →
      battery_percentage_of critical full v = ((v - critical) / (full - critical)) * 100) := by
  refine ⟨?_, ?_, ?_, ?_, ?_, ?_, ?_⟩
  · intro v w hvw
    unfold battery_percentage_of
    by_cases hv1 : v ≥ full
    · have hw1 : w ≥ full := le_trans hv1 hvw
      rw [if_pos hv1, if_pos hw1]
    · rw [if_neg hv1]
      by_cases hw1 : w ≥ full
      · rw [if_pos hw1]
        by_cases hv2 : v ≤ critical
        · rw [if_pos hv2]
          norm_num
        · rw [if_neg hv2]
          push_neg at hv1
          exact interp_le_100 critical full v h (le_of_lt hv1)
      · rw [if_neg hw1]
        by_cases hv2 : v ≤ critical
        · rw [if_pos hv2]
          by_cases hw2 : w ≤ critical
          · rw [if_pos hw2]
          · rw [if_neg hw2]
            push_neg at hw2
            exact interp_nonneg critical full w h (le_of_lt hw2)
        · rw [if_neg hv2]
          have hw2 : ¬ w ≤ critical := by
            push_neg at hv2 ⊢
            linarith
          rw [if_neg hw2]
          exact interp_mono critical full v w h hvw
  · intro v
    unfold battery_percentage_of
    split_ifs with h1 h2
    · norm_num
    · norm_num
    · push_neg at h1 h2
      exact ⟨interp_nonneg critical full v h (le_of_lt h2),
        interp_le_100 critical full v h (le_of_lt h1)⟩
  · unfold battery_percentage_of
    rw [if_neg (by simp [not_le]; linarith), if_pos (le_refl critical)]
  · intro v hv
    unfold battery_percentage_of
    rw [if_neg (by simp [not_le]; linarith), if_pos hv]
  · unfold battery_percentage_of
    rw [if_pos (le_refl full)]
  · intro v hv
    unfold battery_percentage_of
    rw [if_pos hv]
  · intro v hc hf
    unfold battery_percentage_of
    rw [if_neg (by simp [not_le]; linarith), if_neg (by simp [not_le]; linarith)]

/-- Witness for C7 at the configured thresholds critical = 3 V, full = 4.2 V:
zero percentage at critical, 100 at full, interpolated value at 3.6 V. -/
theorem battery_percentage_props_witness :
    battery_percentage_of 3 4.2 3 = 0 ∧
    battery_percentage_of 3 4.2 4.2 = 100 ∧
    battery_percentage_of 3 4.2 3.6 = ((3.6 - 3) / (4.2 - 3)) * 100 :=
  ⟨(battery_percentage_props 3 4.2 (by norm_num)).2.2.1,
   (battery_percentage_props 3 4.2 (by norm_num)).2.2.2.2.1,
   (battery_percentage_props 3 4.2 (by norm_num)).2.2.2.2.2.2 3.6 (by norm_num) (by norm_num)⟩

/-- Claim C8: the classification applies its threshold checks in order, so a
voltage exactly at the critical threshold classifies as CRITICAL (not LOW),
and a voltage exactly at 95 percent of the full voltage classifies as FULL;
the four bands are as the ordered checks dictate. -/
theorem battery_state_boundaries (critical low full : ℚ)
    (h1 : critical < full * (95 / 100)) (h2 : low < full * (95 / 100)) :
    battery_state_of critical low full critical = BatteryState.CRITICAL ∧
    battery_state_of critical low full critical ≠ BatteryState.LOW ∧
    battery_state_of critical low full (full * (95 / 100)) = BatteryState.FULL ∧
    (∀ v : ℚ, v ≤ critical → battery_state_of critical low full v = BatteryState.CRITICAL) ∧
    (∀ v : ℚ, critical < v → v ≤ low → battery_state_of critical low full v = BatteryState.LOW) ∧
    (∀ v : ℚ, critical < v → low < v → full * (95 / 100) ≤ v →
      battery_state_of critical low full v = BatteryState.FULL) ∧
    (∀ v : ℚ, critical < v → low < v → v < full * (95 / 100) →
      battery_state_of critical low full v = BatteryState.NORMAL) := by
  have hcrit : battery_state_of critical low full critical = BatteryState.CRITICAL := by
    unfold battery_state_of
    rw [if_pos (le_refl critical)]
  refine ⟨hcrit, by rw [hcrit]; exact fun hx => BatteryState.noConfusion hx, ?_, ?_, ?_, ?_, ?_⟩
  · unfold battery_state_of
    rw [if_neg (not_le.mpr h1), if_neg (not_le.mpr h2), if_pos (le_refl (full * (95 / 100)))]
  · intro v hv
    unfold battery_state_of
    rw [if_pos hv]
  · intro v hc hl
    unfold battery_state_of
    rw [if_neg (not_le.mpr hc), if_pos hl]
  · intro v hc hl hf
    unfold battery_state_of
    rw [if_neg (not_le.mpr hc), if_neg (not_le.mpr hl), if_pos hf]
  · intro v hc hl hf
    unfold battery_state_of
    rw [if_neg (not_le.mpr hc), if_neg (not_le.mpr hl), if_neg (not_le.mpr hf)]

/-- Witness for C8 at the configured thresholds critical = 3 V, low = 3.3 V,
full = 4.2 V: 3 V classifies as CRITICAL and 3.99 V = 0.95 x 4.2 V as FULL. -/
theorem battery_state_boundaries_witness :
    battery_state_of 3 3.3 4.2 3 = BatteryState.CRITICAL ∧
    battery_state_of 3 3.3 4.2 (4.2 * (95 / 100)) = BatteryState.FULL :=
  ⟨(battery_state_boundaries 3 3.3 4.2 (by norm_num) (by norm_num)).1,
   (battery_state_boundaries 3 3.3 4.2 (by norm_num) (by norm_num)).2.2.1⟩

/-- Claim C9 counterexample: on a freshly constructed PowerManager no
get_battery_status call has happened, so even though the latest averaged
voltage (a single 3 V sample, exactly the critical threshold) classifies as
CRITICAL, get_suggested_sleep_time returns the unmultiplied base interval
300 s instead of the 1200 s the claim requires: the state is not recomputed
from the sampled voltage. -/
theorem get_suggested_sleep_time_stale :
    (read_battery_voltage PowerManager.init 3).1 = 3 ∧
    battery_state_of BATTERY_CRITICAL_VOLTAGE BATTERY_LOW_VOLTAGE BATTERY_FULL_VOLTAGE
      ((read_battery_voltage PowerManager.init 3).1) = BatteryState.CRITICAL ∧
    (get_suggested_sleep_time PowerManager.init 3).1 = 300 ∧
    (300 : ℕ) ≠ SENSOR_READ_INTERVAL * 4 := by
  have h1 : (read_battery_voltage PowerManager.init 3).1 = 3 := by
    norm_num [read_battery_voltage, PowerManager.init, max_samples]
  refine ⟨h1, ?_, ?_, by decide⟩
  · rw [h1]
    norm_num [battery_state_of, BATTERY_CRITICAL_VOLTAGE, BATTERY_LOW_VOLTAGE,
      BATTERY_FULL_VOLTAGE]
  · simp [get_suggested_sleep_time, get_battery_percentage, read_battery_voltage,
      PowerManager.init, SENSOR_READ_INTERVAL]

/-- Zeta-expanded shape of get_suggested_sleep_time: the branch is taken on
the flags carried unchanged through the percentage read. -/
theorem get_suggested_sleep_time_shape (pm : PowerManager) (v : ℚ) :
    get_suggested_sleep_time pm v =
      (if (get_battery_percentage pm v).2.is_critical_battery then
        (SENSOR_READ_INTERVAL * 4, (get_battery_percentage pm v).2)
       else if (get_battery_percentage pm v).2.is_low_battery then
        (SENSOR_READ_INTERVAL * 2, (get_battery_percentage pm v).2)
       else (SENSOR_READ_INTERVAL, (get_battery_percentage pm v).2)) := rfl

/-- The suggested sleep seconds as a pure function of the stored flags. -/
theorem get_suggested_sleep_time_fst (pm : PowerManager) (v : ℚ) :
    (get_suggested_sleep_time pm v).1 =
      if pm.is_critical_battery then 1200 else if pm.is_low_battery then 600 else 300 := by
  have h1 : (get_battery_percentage pm v).2.is_critical_battery = pm.is_critical_battery := rfl
  have h2 : (get_battery_percentage pm v).2.is_low_battery = pm.is_low_battery := rfl
  rw [get_suggested_sleep_time_shape, h1, h2]
  cases pm.is_critical_battery <;> cases pm.is_low_battery <;> simp [SENSOR_READ_INTERVAL]

/-- Zeta-expanded shape of get_battery_status: the ordered threshold checks
on the first averaged voltage, each branch writing the flags. -/
theorem get_battery_status_shape (pm : PowerManager) (v1 v2 : ℚ) :
    get_battery_status pm v1 v2 =
      (if (read_battery_voltage pm v1).1 ≤ pm.critical_voltage then
        (BatteryState.CRITICAL,
         { (get_battery_percentage (read_battery_voltage pm v1).2 v2).2 with
           is_critical_battery := true, is_low_battery := true })
       else if (read_battery_voltage pm v1).1 ≤ pm.low_voltage then
        (BatteryState.LOW,
         { (get_battery_percentage (read_battery_voltage pm v1).2 v2).2 with
           is_low_battery := true, is_critical_battery := false })
       else if (read_battery_voltage pm v1).1 ≥ pm.full_voltage * (95 / 100) then
        (BatteryState.FULL,
         { (get_battery_percentage (read_battery_voltage pm v1).2 v2).2 with
           is_low_battery := false, is_critical_battery := false })
       else
        (BatteryState.NORMAL,
         { (get_battery_percentage (read_battery_voltage pm v1).2 v2).2 with
           is_low_battery := false, is_critical_battery := false })) := rfl

/-- Claim C9 as amended: get_suggested_sleep_time multiplies the base
interval (300 s) by 4 after the most recent get_battery_status classified
CRITICAL, by 2 after LOW, and by 1 otherwise — the state used is the one
stored by that most recent get_battery_status call, not one recomputed from
the voltage get_suggested_sleep_time samples itself. -/
theorem get_suggested_sleep_time_after_status (pm : PowerManager) (v1 v2 v3 : ℚ) :
    (get_suggested_sleep_time (get_battery_status pm v1 v2).2 v3).1 =
      match (get_battery_status pm v1 v2).1 with
      | BatteryState.CRITICAL => 1200
      | BatteryState.LOW => 600
      | BatteryState.FULL => 300
      | BatteryState.NORMAL => 300 := by
  rw [get_battery_status_shape]
  split_ifs <;> simp [get_suggested_sleep_time_fst]

/-- Claim C10: the sleep-time decision depends only on the stored
is_critical_battery / is_low_battery flags: for every manager state and
every sampled voltage the result is 1200/600/300 s according to the flags
alone; the flags start False on a fresh manager, so before any
get_battery_status call the result is the base interval 300 s for every
voltage (including voltages at or below the critical threshold); and
neither read_battery_voltage, get_battery_percentage nor
get_suggested_sleep_time itself ever changes the flags (within the model
only get_battery_status writes them). -/
theorem get_suggested_sleep_time_uses_flags (pm : PowerManager) (v : ℚ) :
    ((get_suggested_sleep_time pm v).1 =
      if pm.is_critical_battery then 1200 else if pm.is_low_battery then 600 else 300) ∧
    PowerManager.init.is_critical_battery = false ∧
    PowerManager.init.is_low_battery = false ∧
    (get_suggested_sleep_time PowerManager.init v).1 = 300 ∧
    (read_battery_voltage pm v).2.is_critical_battery = pm.is_critical_battery ∧
    (read_battery_voltage pm v).2.is_low_battery = pm.is_low_battery ∧
    (get_battery_percentage pm v).2.is_critical_battery = pm.is_critical_battery ∧
    (get_battery_percentage pm v).2.is_low_battery = pm.is_low_battery ∧
    (get_suggested_sleep_time pm v).2.is_critical_battery = pm.is_critical_battery ∧
    (get_suggested_sleep_time pm v).2.is_low_battery = pm.is_low_battery := by
  refine ⟨get_suggested_sleep_time_fst pm v, rfl, rfl, ?_, rfl, rfl, rfl, rfl, ?_, ?_⟩
  · rw [get_suggested_sleep_time_fst PowerManager.init v]
    rfl
  · rw [get_suggested_sleep_time_shape]
    split_ifs <;> rfl
  · rw [get_suggested_sleep_time_shape]
    split_ifs <;> rfl

/-- Witness for C2 at concrete inputs on which the raw polynomial exceeds
100 (value 200), so the clamp to 100 fires and the bounds hold. -/
theorem compensate_humidity_clamped_witness :
    compensate_humidity 0 65536 0 0 0 0 76800 200 = 100 ∧
    0 ≤ compensate_humidity 0 65536 0 0 0 0 76800 200 :=
  ⟨(compensate_humidity_clamped 0 65536 0 0 0 0 76800 200).2.1
    (by norm_num [humidity_unclamped]),
   (compensate_humidity_clamped 0 65536 0 0 0 0 76800 200).1.1⟩
